import Mathlib

/-!
Verification of the VendorSense industrial sensor drivers
(`sensor_minimal.py`, `sensor_full.py`, `sensor_ml.py`) against their
natural-language specification.

The Python sources are shallowly embedded below: float values become real
numbers, the per-tag dictionaries become functions from tag names, exceptions
that are caught at the call site become `Except` values that are handled
totally, and the randomized inputs (sensor noise, model noise) become explicit
parameters, so that every behaviour of the original code is a behaviour of the
embedding at some choice of those parameters.
-/

/-- IEC 61131-3 data quality flags, from `sensor_full.py` (`DataQuality`). -/
inductive DataQuality where
  | GOOD
  | UNCERTAIN
  | BAD
  | NOT_CONNECTED
deriving DecidableEq, Repr

/-- Industrial process variable, from `sensor_full.py` (`ProcessVariable`).
The `timestamp` field of the source (a wall-clock datetime) is omitted:
no embedded operation reads it. -/
structure ProcessVariable where
  tag_name : String
  value : ℝ
  unit : String
  quality : DataQuality
  source_device : String
  engineering_low : ℝ
  engineering_high : ℝ

/-- Embeds `ProcessVariable.is_in_range` from `sensor_full.py` line 70:
`self.engineering_low <= self.value <= self.engineering_high`. -/
def ProcessVariable.is_in_range (pv : ProcessVariable) : Prop :=
  pv.engineering_low ≤ pv.value ∧ pv.value ≤ pv.engineering_high

/-- Helper used by theorem statements: a reading with the dataclass defaults
for the metadata fields (engineering range 0..10000, as in the source). -/
def mkPV (tag : String) (v : ℝ) : ProcessVariable :=
  { tag_name := tag, value := v, unit := ("")
    quality := DataQuality.GOOD, source_device := ("")
    engineering_low := 0, engineering_high := 10000 }

/-- One insertion into a rolling buffer, from
`DataProcessingPipeline.add_reading` (`sensor_full.py` lines 126-135):
append the value, then `pop(0)` once if the length exceeds the window size. -/
def step (window_size : Nat) (buf : List ℝ) (v : ℝ) : List ℝ :=
  if (buf ++ [v]).length > window_size then (buf ++ [v]).drop 1 else buf ++ [v]

/-- The rolling buffer obtained by feeding a whole sequence of values for one
tag through `add_reading`, starting from the empty buffer. -/
def window (window_size : Nat) (vs : List ℝ) : List ℝ :=
  vs.foldl (step window_size) []

theorem length_append_singleton {α : Type} (buf : List α) (v : α) :
    (buf ++ [v]).length = buf.length + 1 := by
  simp

theorem step_length_le (ws : Nat) (buf : List ℝ) (v : ℝ)
    (h : buf.length ≤ ws) : (step ws buf v).length ≤ ws := by
  unfold step
  split
  · simp only [List.length_drop, length_append_singleton]
    omega
  · rename_i hgt
    rw [length_append_singleton] at hgt
    rw [length_append_singleton]
    omega

theorem foldl_step_eq (ws : Nat) :
    ∀ (vs init : List ℝ), init.length ≤ ws →
      List.foldl (step ws) init vs =
        (init ++ vs).drop (init.length + vs.length - ws) := by
  intro vs
  induction vs with
  | nil =>
    intro init h
    simp [Nat.sub_eq_zero_of_le h]
  | cons v rest ih =>
    intro init h
    simp only [List.foldl_cons]
    by_cases hgt : (init ++ [v]).length > ws
    · have hfull : init.length = ws := by
        rw [length_append_singleton] at hgt
        omega
      have hstep : step ws init v = (init ++ [v]).drop 1 := by
        simp only [step, if_pos hgt]
      have hlen1 : ((init ++ [v]).drop 1).length ≤ ws := by
        rw [List.length_drop, length_append_singleton]
        omega
      have hle1 : 1 ≤ (init ++ [v]).length := by
        rw [length_append_singleton]
        omega
      rw [hstep, ih _ hlen1, ← List.drop_append_of_le_length hle1,
        List.drop_drop]
      have hshape : (init ++ [v]) ++ rest = init ++ v :: rest := by
        simp
      rw [hshape]
      congr 1
      rw [List.length_drop, length_append_singleton, List.length_cons]
      omega
    · have hstep : step ws init v = init ++ [v] := by
        simp only [step, if_neg hgt]
      have hlen1 : (init ++ [v]).length ≤ ws := by
        rw [length_append_singleton] at hgt ⊢
        omega
      rw [hstep, ih _ hlen1]
      have hshape : (init ++ [v]) ++ rest = init ++ v :: rest := by
        simp
      rw [hshape]
      congr 1
      rw [length_append_singleton, List.length_cons]
      omega

/-- The rolling buffer for a tag is exactly the suffix of the observed values
that fits in the window. -/
theorem window_eq_drop (ws : Nat) (vs : List ℝ) :
    window ws vs = vs.drop (vs.length - ws) := by
  have h := foldl_step_eq ws vs [] (by simp)
  simpa [window] using h

theorem window_length (ws : Nat) (vs : List ℝ) :
    (window ws vs).length = min vs.length ws := by
  rw [window_eq_drop, List.length_drop]
  omega

/-- Per-tag control statistics snapshot, from
`DataProcessingPipeline.compute_statistics` (`sensor_full.py` lines 137-158).
The dictionary keys of the source become fields. -/
structure Stats where
  count : Nat
  mean : ℝ
  std : ℝ
  min : ℝ
  max : ℝ
  ucl : ℝ
  lcl : ℝ

noncomputable section

/-- Arithmetic mean of a list, as computed by `np.mean`. -/
def listMean (l : List ℝ) : ℝ := l.sum / l.length

/-- Population variance of a list (`np.std` squared): mean squared deviation,
dividing by N. -/
def listVar (l : List ℝ) : ℝ :=
  ((l.map fun x => (x - listMean l) ^ 2).sum) / l.length

/-- Population standard deviation, as computed by `np.std` (divide by N). -/
def listStd (l : List ℝ) : ℝ := Real.sqrt (listVar l)

/-- Minimum of a nonempty list, as computed by `np.min`. -/
def listMinimum (l : List ℝ) : ℝ :=
  match l with
  | [] => 0
  | x :: xs => xs.foldl min x

/-- Maximum of a nonempty list, as computed by `np.max`. -/
def listMaximum (l : List ℝ) : ℝ :=
  match l with
  | [] => 0
  | x :: xs => xs.foldl max x

/-- The statistics dictionary built by `compute_statistics` from the current
window contents (`sensor_full.py` lines 147-155). -/
def statsOf (data : List ℝ) : Stats :=
  { count := data.length
    mean := listMean data
    std := listStd data
    min := listMinimum data
    max := listMaximum data
    ucl := listMean data + 3 * listStd data
    lcl := listMean data - 3 * listStd data }

/-- State of `DataProcessingPipeline` (`sensor_full.py` lines 109-158):
`_buffer` is the per-tag rolling window (a missing dictionary key is modelled
as the empty list, matching the lazy initialisation in `add_reading`), and
`_statistics` the per-tag cached snapshot (missing key modelled as `none`). -/
structure Pipeline where
  window_size : Nat
  buffer : String → List ℝ
  statistics : String → Option Stats

/-- A freshly constructed `DataProcessingPipeline(window_size)`. -/
def initPipeline (ws : Nat) : Pipeline :=
  { window_size := ws, buffer := fun _ => [], statistics := fun _ => none }

/-- Embeds `DataProcessingPipeline.add_reading` (`sensor_full.py` lines 126-135). -/
def add_reading (p : Pipeline) (pv : ProcessVariable) : Pipeline :=
  { p with
    buffer := fun t =>
      if t = pv.tag_name then step p.window_size (p.buffer pv.tag_name) pv.value
      else p.buffer t }

/-- Embeds `DataProcessingPipeline.compute_statistics` (`sensor_full.py` lines
137-158): returns the empty result and leaves the cache untouched when the
tag's window has fewer than 2 samples, otherwise recomputes the snapshot
from the current window and stores it. -/
def compute_statistics (p : Pipeline) (tag : String) : Option Stats × Pipeline :=
  if (p.buffer tag).length < 2 then (none, p)
  else
    (some (statsOf (p.buffer tag)),
      { p with
        statistics := fun t =>
          if t = tag then some (statsOf (p.buffer tag)) else p.statistics t })

/-- SPC alarm classification, from `DataProcessingPipeline.check_spc_alarm`
(`sensor_full.py` lines 160-175); the violation messages of the source carry
the offending value and the violated limit. -/
inductive SpcAlarm where
  | ucl_violation (value limit : ℝ)
  | lcl_violation (value limit : ℝ)

/-- Embeds `DataProcessingPipeline.check_spc_alarm` (`sensor_full.py` lines 160-175). -/
def check_spc_alarm (p : Pipeline) (pv : ProcessVariable) : Option SpcAlarm :=
  match p.statistics pv.tag_name with
  | none => none
  | some s =>
    if pv.value > s.ucl then some (SpcAlarm.ucl_violation pv.value s.ucl)
    else if pv.value < s.lcl then some (SpcAlarm.lcl_violation pv.value s.lcl)
    else none

/-- Feeding a sequence of readings through `add_reading`. -/
def feed (p : Pipeline) (pvs : List ProcessVariable) : Pipeline :=
  pvs.foldl add_reading p

end

theorem add_reading_window_size (p : Pipeline) (pv : ProcessVariable) :
    (add_reading p pv).window_size = p.window_size := rfl

theorem add_reading_buffer_same (p : Pipeline) (pv : ProcessVariable) :
    (add_reading p pv).buffer pv.tag_name
      = step p.window_size (p.buffer pv.tag_name) pv.value := by
  simp [add_reading]

theorem add_reading_buffer_other (p : Pipeline) (pv : ProcessVariable)
    (t : String) (h : t ≠ pv.tag_name) :
    (add_reading p pv).buffer t = p.buffer t := by
  simp [add_reading, h]

/-- The values observed for one tag within a mixed-tag reading sequence. -/
noncomputable def tagValues (tag : String) (pvs : List ProcessVariable) :
    List ℝ :=
  (pvs.filter fun pv => pv.tag_name = tag).map ProcessVariable.value

theorem feed_buffer (tag : String) :
    ∀ (pvs : List ProcessVariable) (p : Pipeline),
      (feed p pvs).buffer tag
        = (tagValues tag pvs).foldl (step p.window_size) (p.buffer tag) := by
  intro pvs
  induction pvs with
  | nil => intro p; simp [feed, tagValues]
  | cons pv rest ih =>
    intro p
    by_cases htag : pv.tag_name = tag
    · have h1 : (feed p (pv :: rest)) = feed (add_reading p pv) rest := by
        simp [feed]
      rw [h1, ih]
      have h2 : tagValues tag (pv :: rest) = pv.value :: tagValues tag rest := by
        simp [tagValues, htag]
      rw [h2, add_reading_window_size]
      simp only [List.foldl_cons]
      rw [← htag, add_reading_buffer_same]
    · have h1 : (feed p (pv :: rest)) = feed (add_reading p pv) rest := by
        simp [feed]
      rw [h1, ih]
      have h2 : tagValues tag (pv :: rest) = tagValues tag rest := by
        simp [tagValues, htag]
      rw [h2, add_reading_window_size,
        add_reading_buffer_other p pv tag (fun h => htag h.symm)]

theorem feed_buffer_init (ws : Nat) (tag : String)
    (pvs : List ProcessVariable) :
    (feed (initPipeline ws) pvs).buffer tag = window ws (tagValues tag pvs) := by
  rw [feed_buffer tag pvs (initPipeline ws)]
  rfl

/-- C1: for every tag and every sequence of readings fed through
`add_reading` starting from a fresh pipeline, the tag's rolling window has
length at most the capacity fixed at construction, its length is exactly
`min n capacity` where `n` is the number of values observed for that tag, its
contents are exactly the last `min n capacity` of those values in observation
order, and inserting `capacity + 1` values for the tag leaves the window at
length `capacity` with exactly the oldest value dropped (FIFO eviction). -/
theorem C1_rolling_window_fifo (ws : Nat) (tag : String)
    (pvs : List ProcessVariable) :
    ((feed (initPipeline ws) pvs).buffer tag).length ≤ ws ∧
    ((feed (initPipeline ws) pvs).buffer tag).length
      = min (tagValues tag pvs).length ws ∧
    (feed (initPipeline ws) pvs).buffer tag
      = (tagValues tag pvs).drop ((tagValues tag pvs).length - ws) ∧
    ((tagValues tag pvs).length = ws + 1 →
      ((feed (initPipeline ws) pvs).buffer tag).length = ws ∧
      (feed (initPipeline ws) pvs).buffer tag = (tagValues tag pvs).drop 1) := by
  rw [feed_buffer_init, window_eq_drop, List.length_drop]
  refine ⟨by omega, by omega, rfl, ?_⟩
  intro hlen
  rw [hlen]
  exact ⟨by omega, by simp⟩

/-- Demonstration readings used by the C1 witness: three values for tag `T`
with one value for another tag interleaved. -/
noncomputable def demoPVs : List ProcessVariable :=
  [mkPV ("T") 1, mkPV ("T") 2, mkPV ("U") 9, mkPV ("T") 3]

theorem C1_rolling_window_fifo_witness :
    (feed (initPipeline 2) demoPVs).buffer ("T") = [(2 : ℝ), 3] := by
  have h := (C1_rolling_window_fifo 2 ("T") demoPVs).2.2.2 (by
    simp [demoPVs, tagValues, mkPV])
  rw [h.2]
  simp [demoPVs, tagValues, mkPV]

theorem listVar_nonneg (l : List ℝ) : 0 ≤ listVar l := by
  apply div_nonneg
  · apply List.sum_nonneg
    intro x hx
    obtain ⟨y, _, rfl⟩ := List.mem_map.mp hx
    positivity
  · positivity

theorem listStd_nonneg (l : List ℝ) : 0 ≤ listStd l := Real.sqrt_nonneg _

theorem listStd_sq (l : List ℝ) : (listStd l) ^ 2 = listVar l :=
  Real.sq_sqrt (listVar_nonneg l)

theorem step_getLast (ws : Nat) (buf : List ℝ) (v : ℝ) (hws : 1 ≤ ws) :
    (step ws buf v).getLast? = some v := by
  unfold step
  by_cases hgt : (buf ++ [v]).length > ws
  · rw [if_pos hgt]
    have hb : 1 ≤ buf.length := by
      rw [length_append_singleton] at hgt
      omega
    rw [List.drop_append_of_le_length hb, List.getLast?_concat]
  · rw [if_neg hgt, List.getLast?_concat]

/-- C2: after an observe (`add_reading`), the Control Statistics snapshot is
recomputed in full from the current window — which already contains the value
just observed (look-ahead) — with `count` equal to the window length,
population standard deviation (N · σ² equals the sum of squared deviations
from the mean, so the divisor is N, not N − 1), `ucl = mean + 3σ`,
`lcl = mean − 3σ` and hence `ucl − lcl = 6σ`; when the window holds fewer
than 2 samples the snapshot is absent and the cache is untouched. -/
theorem C2_statistics_snapshot (p : Pipeline) (pv : ProcessVariable) :
    (2 ≤ ((add_reading p pv).buffer pv.tag_name).length →
      ∃ s : Stats,
        (compute_statistics (add_reading p pv) pv.tag_name).1 = some s ∧
        ((compute_statistics (add_reading p pv) pv.tag_name).2).statistics
          pv.tag_name = some s ∧
        ((compute_statistics (add_reading p pv) pv.tag_name).2).buffer
          = (add_reading p pv).buffer ∧
        s.count = ((add_reading p pv).buffer pv.tag_name).length ∧
        s.mean = ((add_reading p pv).buffer pv.tag_name).sum
          / ((add_reading p pv).buffer pv.tag_name).length ∧
        0 ≤ s.std ∧
        s.std ^ 2 * ((add_reading p pv).buffer pv.tag_name).length
          = (((add_reading p pv).buffer pv.tag_name).map
              fun x => (x - s.mean) ^ 2).sum ∧
        s.ucl = s.mean + 3 * s.std ∧
        s.lcl = s.mean - 3 * s.std ∧
        s.ucl - s.lcl = 6 * s.std) ∧
    (((add_reading p pv).buffer pv.tag_name).length < 2 →
      compute_statistics (add_reading p pv) pv.tag_name
        = (none, add_reading p pv)) ∧
    (1 ≤ p.window_size →
      ((add_reading p pv).buffer pv.tag_name).getLast? = some pv.value) := by
  refine ⟨?_, ?_, ?_⟩
  · intro h2
    have hnlt : ¬ ((add_reading p pv).buffer pv.tag_name).length < 2 := by
      omega
    refine ⟨statsOf ((add_reading p pv).buffer pv.tag_name), ?_, ?_, ?_, rfl,
      rfl, listStd_nonneg _, ?_, rfl, rfl, by simp [statsOf]; ring⟩
    · simp only [compute_statistics, if_neg hnlt]
    · simp only [compute_statistics, if_neg hnlt]
      simp
    · simp only [compute_statistics, if_neg hnlt]
    · show (listStd _) ^ 2 * _ = _
      rw [listStd_sq]
      unfold listVar
      rw [div_mul_cancel₀]
      · rfl
      · have : ((add_reading p pv).buffer pv.tag_name).length ≠ 0 := by omega
        exact_mod_cast this
  · intro h
    simp only [compute_statistics, if_pos h]
  · intro hws
    rw [add_reading_buffer_same]
    exact step_getLast p.window_size _ pv.value hws

theorem C2_statistics_snapshot_witness :
    ∃ s : Stats,
      (compute_statistics
        (add_reading (add_reading (initPipeline 100) (mkPV ("T") 0))
          (mkPV ("T") 2)) ("T")).1 = some s ∧
      s.count = 2 ∧ s.ucl - s.lcl = 6 * s.std := by
  have hbuf : (add_reading (add_reading (initPipeline 100) (mkPV ("T") 0))
      (mkPV ("T") 2)).buffer ("T") = [(0 : ℝ), 2] := by
    simp [add_reading, initPipeline, step, mkPV]
  have h := (C2_statistics_snapshot
    (add_reading (initPipeline 100) (mkPV ("T") 0)) (mkPV ("T") 2)).1
  rw [show (mkPV ("T") 2).tag_name = ("T") from rfl, hbuf] at h
  obtain ⟨s, h1, _, _, hcount, _, _, _, _, _, hdiff⟩ := h (by norm_num)
  exact ⟨s, h1, by rw [hcount]; rfl, hdiff⟩

/-- Pipeline states reachable through the operations of
`DataProcessingPipeline` from a freshly constructed pipeline. -/
inductive Reachable : Pipeline → Prop where
  | init (ws : Nat) : Reachable (initPipeline ws)
  | add (p : Pipeline) (pv : ProcessVariable) :
      Reachable p → Reachable (add_reading p pv)
  | stats (p : Pipeline) (tag : String) :
      Reachable p → Reachable (compute_statistics p tag).2

/-- Invariant of reachable pipelines: a cached snapshot exists only for tags
whose window has at least 2 samples, and its control limits are ordered. -/
def PipelineInv (p : Pipeline) : Prop :=
  ∀ tag s, p.statistics tag = some s →
    2 ≤ (p.buffer tag).length ∧ s.lcl ≤ s.ucl

theorem step_length_mono (ws : Nat) (buf : List ℝ) (v : ℝ) :
    buf.length ≤ (step ws buf v).length := by
  unfold step
  split
  · rw [List.length_drop, length_append_singleton]
    omega
  · rw [length_append_singleton]
    omega

theorem statsOf_lcl_le_ucl (data : List ℝ) :
    (statsOf data).lcl ≤ (statsOf data).ucl := by
  show listMean data - 3 * listStd data ≤ listMean data + 3 * listStd data
  have h := listStd_nonneg data
  nlinarith

theorem reachable_inv (p : Pipeline) (hp : Reachable p) : PipelineInv p := by
  induction hp with
  | init ws =>
    intro tag s hs
    simp [initPipeline] at hs
  | add q pv _ ih =>
    intro tag s hs
    have hs' : q.statistics tag = some s := hs
    obtain ⟨hlen, hord⟩ := ih tag s hs'
    refine ⟨?_, hord⟩
    by_cases htag : tag = pv.tag_name
    · subst htag
      rw [add_reading_buffer_same]
      exact le_trans hlen (step_length_mono _ _ _)
    · rw [add_reading_buffer_other q pv tag htag]
      exact hlen
  | stats q tag _ ih =>
    intro tag' s hs
    by_cases hlt : (q.buffer tag).length < 2
    · rw [show (compute_statistics q tag).2 = q by
        simp [compute_statistics, if_pos hlt]] at hs ⊢
      exact ih tag' s hs
    · have h2 : (compute_statistics q tag).2
          = { q with statistics := fun t =>
                if t = tag then some (statsOf (q.buffer tag))
                else q.statistics t } := by
        simp [compute_statistics, if_neg hlt]
      rw [h2] at hs ⊢
      by_cases htag : tag' = tag
      · subst htag
        simp only [if_pos rfl] at hs
        have hseq : s = statsOf (q.buffer tag') := by
          injection hs.symm
        subst hseq
        refine ⟨?_, statsOf_lcl_le_ucl _⟩
        show 2 ≤ (q.buffer tag').length
        omega
      · simp only [if_neg htag] at hs
        exact ih tag' s hs

/-- C3: the SPC alarm check returns no alarm when no Control Statistics have
been computed for the tag — in particular, in any reachable pipeline state,
whenever the tag's window has fewer than 2 samples; when a snapshot is stored
it reports an upper-limit violation exactly on values strictly above the
stored UCL, a lower-limit violation on values strictly below the stored LCL,
and nothing for values between the limits. -/
theorem C3_spc_alarm (p : Pipeline) (pv : ProcessVariable) :
    (p.statistics pv.tag_name = none → check_spc_alarm p pv = none) ∧
    (Reachable p → (p.buffer pv.tag_name).length < 2 →
      check_spc_alarm p pv = none) ∧
    (∀ s : Stats, p.statistics pv.tag_name = some s →
      (s.ucl < pv.value →
        check_spc_alarm p pv = some (SpcAlarm.ucl_violation pv.value s.ucl)) ∧
      (s.lcl ≤ s.ucl → pv.value < s.lcl →
        check_spc_alarm p pv = some (SpcAlarm.lcl_violation pv.value s.lcl)) ∧
      (s.lcl ≤ pv.value → pv.value ≤ s.ucl →
        check_spc_alarm p pv = none)) := by
  refine ⟨?_, ?_, ?_⟩
  · intro h
    simp [check_spc_alarm, h]
  · intro hr hlen
    cases hstat : p.statistics pv.tag_name with
    | none => simp [check_spc_alarm, hstat]
    | some s =>
      have := (reachable_inv p hr pv.tag_name s hstat).1
      omega
  · intro s hs
    refine ⟨?_, ?_, ?_⟩
    · intro hgt
      simp [check_spc_alarm, hs, hgt]
    · intro hord hlt
      have hnot : ¬ pv.value > s.ucl := by
        simp only [not_lt]
        exact le_trans (le_of_lt hlt) (le_trans hord (le_refl _))
      simp [check_spc_alarm, hs, hnot, hlt]
    · intro hge hle
      have h1 : ¬ pv.value > s.ucl := not_lt.mpr hle
      have h2 : ¬ pv.value < s.lcl := not_lt.mpr hge
      simp [check_spc_alarm, hs, h1, h2]

/-- A stored snapshot with UCL 100 and LCL 50, as in the specification's
worked example; the remaining fields reproduce a window with mean 75 and
standard deviation 25/3. -/
noncomputable def exampleStats : Stats :=
  { count := 2, mean := 75, std := 25 / 3, min := 200 / 3, max := 250 / 3
    ucl := 100, lcl := 50 }

/-- A pipeline state holding `exampleStats` for tag `T`. -/
noncomputable def examplePipeline : Pipeline :=
  { window_size := 100
    buffer := fun t => if t = ("T") then [250 / 3, 200 / 3] else []
    statistics := fun t => if t = ("T") then some exampleStats else none }

theorem C3_spc_alarm_witness :
    check_spc_alarm (initPipeline 100) (mkPV ("T") 101) = none ∧
    check_spc_alarm examplePipeline (mkPV ("T") 101)
      = some (SpcAlarm.ucl_violation 101 100) ∧
    check_spc_alarm examplePipeline (mkPV ("T") 49)
      = some (SpcAlarm.lcl_violation 49 50) ∧
    check_spc_alarm examplePipeline (mkPV ("T") 75) = none := by
  have hstat : examplePipeline.statistics (mkPV ("T") 101).tag_name
      = some exampleStats := by
    simp [examplePipeline, mkPV]
  refine ⟨?_, ?_, ?_, ?_⟩
  · exact (C3_spc_alarm (initPipeline 100) (mkPV ("T") 101)).2.1
      (Reachable.init 100) (by simp [initPipeline])
  · have h := ((C3_spc_alarm examplePipeline (mkPV ("T") 101)).2.2
      exampleStats hstat).1 (by norm_num [exampleStats, mkPV])
    simpa [mkPV, exampleStats] using h
  · have h := ((C3_spc_alarm examplePipeline (mkPV ("T") 49)).2.2
      exampleStats hstat).2.1 (by norm_num [exampleStats])
      (by norm_num [exampleStats, mkPV])
    simpa [mkPV, exampleStats] using h
  · have h := ((C3_spc_alarm examplePipeline (mkPV ("T") 75)).2.2
      exampleStats hstat).2.2 (by norm_num [exampleStats, mkPV])
      (by norm_num [exampleStats, mkPV])
    simpa [mkPV, exampleStats] using h

/-- Equipment health classification, from `sensor_ml.py` (`HealthStatus`). -/
inductive HealthStatus where
  | HEALTHY
  | DEGRADED
  | WARNING
  | CRITICAL
  | UNKNOWN
deriving DecidableEq, Repr

/-- Detected anomaly kinds, from `sensor_ml.py` (`AnomalyType`). -/
inductive AnomalyType where
  | NONE
  | POINT_ANOMALY
  | CONTEXTUAL_ANOMALY
  | COLLECTIVE_ANOMALY
deriving DecidableEq, Repr

/-- Embeds `MLInferenceDriver.ANOMALY_THRESHOLD_WARNING` (`sensor_ml.py` line 225). -/
noncomputable def ANOMALY_THRESHOLD_WARNING : ℝ := 0.6

/-- Embeds `MLInferenceDriver.ANOMALY_THRESHOLD_CRITICAL` (`sensor_ml.py` line 226). -/
noncomputable def ANOMALY_THRESHOLD_CRITICAL : ℝ := 0.85

/-- The classification section of `MLInferenceDriver.run_inference`
(`sensor_ml.py` lines 285-305): maps the two continuous scores to an anomaly
category and a health status with recommended action. -/
noncomputable def classify (anomaly_score health_score : ℝ) :
    AnomalyType × HealthStatus × String :=
  ( if anomaly_score > ANOMALY_THRESHOLD_CRITICAL then AnomalyType.POINT_ANOMALY
    else if anomaly_score > ANOMALY_THRESHOLD_WARNING then
      AnomalyType.CONTEXTUAL_ANOMALY
    else AnomalyType.NONE
  , if health_score > 0.8 then
      (HealthStatus.HEALTHY, ("Continue normal operation"))
    else if health_score > 0.6 then
      (HealthStatus.DEGRADED, ("Schedule preventive maintenance within 30 days"))
    else if health_score > 0.4 then
      (HealthStatus.WARNING, ("Inspection required within 7 days"))
    else (HealthStatus.CRITICAL, ("IMMEDIATE MAINTENANCE REQUIRED")) )

/-- The fields of the `InferenceResult` produced by `run_inference` that
depend on the model scores (`sensor_ml.py` lines 307-317); the model and
timing metadata are omitted. -/
structure InferenceResult where
  anomaly_score : ℝ
  anomaly_type : AnomalyType
  health_status : HealthStatus
  confidence : ℝ
  remaining_useful_life_hours : ℝ
  recommended_action : String

/-- Embeds `MLInferenceDriver.run_inference` (`sensor_ml.py` lines 276-326), given
the scores returned by `PredictiveMaintenanceModel.predict` on the acquired
frame. -/
noncomputable def run_inference_result (anomaly_score health_score rul : ℝ) :
    InferenceResult :=
  { anomaly_score := anomaly_score
    anomaly_type := (classify anomaly_score health_score).1
    health_status := (classify anomaly_score health_score).2.1
    confidence := health_score
    remaining_useful_life_hours := rul
    recommended_action := (classify anomaly_score health_score).2.2 }

/-- The remaining-useful-life line of `PredictiveMaintenanceModel.predict`
(`sensor_ml.py` line 194): `max(10, 5000 - (anomaly_score * 4000 +
np.random.normal(0, 100)))`, with the Gaussian sample as the explicit
`noise` parameter. -/
noncomputable def rul_estimate (anomaly_score noise : ℝ) : ℝ :=
  max 10 (5000 - (anomaly_score * 4000 + noise))

/-- C4 fails as stated: at anomaly score 0 and health score 0.7 the code
classifies DEGRADED but the recommended action string is
`Schedule preventive maintenance within 30 days`, not the claim's
`schedule maintenance within 30 days` (the two literals differ). -/
theorem C4_classification_counterexample :
    (classify 0 0.7).2.1 = HealthStatus.DEGRADED ∧
    (classify 0 0.7).2.2 = ("Schedule preventive maintenance within 30 days") ∧
    (("Schedule preventive maintenance within 30 days"
        == ("schedule maintenance within 30 days")) = false) := by
  have h1 : ¬ ((0.7 : ℝ) > 0.8) := by norm_num
  have h2 : (0.7 : ℝ) > 0.6 := by norm_num
  refine ⟨?_, ?_, by decide⟩
  · simp only [classify, if_neg h1, if_pos h2]
  · simp only [classify, if_neg h1, if_pos h2]

/-- C4 (amended): classification is a pure function of the two scores with
strict-greater-than tie-breaks at every threshold; the recommended action
strings are the code's exact literals (`Continue normal operation`,
`Schedule preventive maintenance within 30 days`,
`Inspection required within 7 days`, `IMMEDIATE MAINTENANCE REQUIRED`). -/
theorem C4_classification_thresholds (a h : ℝ) :
    (ANOMALY_THRESHOLD_CRITICAL < a →
      (classify a h).1 = AnomalyType.POINT_ANOMALY) ∧
    (a ≤ ANOMALY_THRESHOLD_CRITICAL → ANOMALY_THRESHOLD_WARNING < a →
      (classify a h).1 = AnomalyType.CONTEXTUAL_ANOMALY) ∧
    (a ≤ ANOMALY_THRESHOLD_WARNING → (classify a h).1 = AnomalyType.NONE) ∧
    (0.8 < h → (classify a h).2
      = (HealthStatus.HEALTHY, ("Continue normal operation"))) ∧
    (h ≤ 0.8 → 0.6 < h → (classify a h).2
      = (HealthStatus.DEGRADED,
          ("Schedule preventive maintenance within 30 days"))) ∧
    (h ≤ 0.6 → 0.4 < h → (classify a h).2
      = (HealthStatus.WARNING, ("Inspection required within 7 days"))) ∧
    (h ≤ 0.4 → (classify a h).2
      = (HealthStatus.CRITICAL, ("IMMEDIATE MAINTENANCE REQUIRED"))) ∧
    (∀ a' h', a' = a → h' = h → classify a' h' = classify a h) := by
  refine ⟨?_, ?_, ?_, ?_, ?_, ?_, ?_, ?_⟩
  · intro hc
    simp only [classify, if_pos hc]
  · intro hle hw
    simp only [classify, if_neg (not_lt.mpr hle), if_pos hw]
  · intro hle
    have h1 : ¬ (ANOMALY_THRESHOLD_CRITICAL < a) := by
      simp only [ANOMALY_THRESHOLD_CRITICAL, ANOMALY_THRESHOLD_WARNING]
        at hle ⊢
      norm_num
      linarith
    simp only [classify, if_neg h1, if_neg (not_lt.mpr hle)]
  · intro hc
    simp only [classify, if_pos hc]
  · intro hle hw
    simp only [classify, if_neg (not_lt.mpr hle), if_pos hw]
  · intro hle hw
    have h1 : ¬ ((0.8 : ℝ) < h) := by norm_num; linarith
    simp only [classify, if_neg h1, if_neg (not_lt.mpr hle), if_pos hw]
  · intro hle
    have h1 : ¬ ((0.8 : ℝ) < h) := by norm_num; linarith
    have h2 : ¬ ((0.6 : ℝ) < h) := by norm_num; linarith
    simp only [classify, if_neg h1, if_neg h2, if_neg (not_lt.mpr hle)]
  · intro a' h' ha hh
    rw [ha, hh]

theorem C4_classification_thresholds_witness :
    (classify 0.9 0.5).1 = AnomalyType.POINT_ANOMALY ∧
    (classify 0.9 0.5).2
      = (HealthStatus.WARNING, ("Inspection required within 7 days")) := by
  have h := C4_classification_thresholds 0.9 0.5
  exact ⟨h.1 (by rw [ANOMALY_THRESHOLD_CRITICAL]; norm_num),
    h.2.2.2.2.2.1 (by norm_num) (by norm_num)⟩

/-- C5 fails as stated: the code adds a Gaussian noise sample inside the RUL
formula, so at anomaly score 0 with noise sample 100 the estimate is 4900,
strictly below the claimed `max(10, 5000 − 0·4000) = 5000`. -/
theorem C5_rul_counterexample :
    rul_estimate 0 100 < max 10 (5000 - 0 * 4000) := by
  have h1 : rul_estimate 0 100 = 4900 := by
    rw [rul_estimate]
    rw [show (5000 : ℝ) - (0 * 4000 + 100) = 4900 by norm_num]
    exact max_eq_right (by norm_num)
  have h2 : max (10 : ℝ) (5000 - 0 * 4000) = 5000 := by
    rw [show (5000 : ℝ) - 0 * 4000 = 5000 by norm_num]
    exact max_eq_right (by norm_num)
  rw [h1, h2]
  norm_num

/-- C5 (amended): the RUL estimate equals
`max(10, 5000 − (anomaly_score·4000 + ε))` where `ε` is the Gaussian noise
sample drawn during prediction; it is a function of the score and the noise
sample (not of the score alone), decreasing in the score for a fixed sample,
with RUL(0)=5000 and RUL(1)=1000 at ε = 0 and a floor of 10. -/
theorem C5_rul_formula (a ε a₁ a₂ : ℝ) :
    rul_estimate a ε = max 10 (5000 - (a * 4000 + ε)) ∧
    (a₁ ≤ a₂ → rul_estimate a₂ ε ≤ rul_estimate a₁ ε) ∧
    rul_estimate 0 0 = 5000 ∧
    rul_estimate 1 0 = 1000 ∧
    10 ≤ rul_estimate a ε := by
  refine ⟨rfl, ?_, ?_, ?_, le_max_left _ _⟩
  · intro hle
    apply max_le_max le_rfl
    nlinarith
  · rw [rul_estimate, show (5000 : ℝ) - (0 * 4000 + 0) = 5000 by norm_num]
    exact max_eq_right (by norm_num)
  · rw [rul_estimate, show (5000 : ℝ) - (1 * 4000 + 0) = 1000 by norm_num]
    exact max_eq_right (by norm_num)

theorem C5_rul_formula_witness :
    rul_estimate 1 0 ≤ rul_estimate 0 0 :=
  (C5_rul_formula 0 0 0 1).2.1 (by norm_num)

/-- C10: whatever scores the model produces, the inference result's anomaly
category is one of NONE, CONTEXTUAL_ANOMALY, POINT_ANOMALY and its health
status one of HEALTHY, DEGRADED, WARNING, CRITICAL; the declared variants
COLLECTIVE_ANOMALY and UNKNOWN are never produced by the classification
path. -/
theorem C10_closed_variants (a h rul : ℝ) :
    ((run_inference_result a h rul).anomaly_type = AnomalyType.NONE ∨
     (run_inference_result a h rul).anomaly_type
        = AnomalyType.CONTEXTUAL_ANOMALY ∨
     (run_inference_result a h rul).anomaly_type
        = AnomalyType.POINT_ANOMALY) ∧
    ((run_inference_result a h rul).health_status = HealthStatus.HEALTHY ∨
     (run_inference_result a h rul).health_status = HealthStatus.DEGRADED ∨
     (run_inference_result a h rul).health_status = HealthStatus.WARNING ∨
     (run_inference_result a h rul).health_status
        = HealthStatus.CRITICAL) := by
  unfold run_inference_result classify
  constructor
  · split_ifs <;> simp
  · split_ifs <;> simp

/-- Outcome of one acquisition-loop iteration's transport read: `success` is
an iteration whose `read_sensors` returns, `failure` one that raises
`ModbusConnectionError`. -/
inductive Outcome where
  | success
  | failure
deriving DecidableEq, Repr

/-- Terminal state of `SensorDriver.run_acquisition_loop`: the consecutive
error counter, whether the loop broke into safe mode, and how many transport
reads were issued. -/
structure LoopResult where
  errors : Nat
  safe_mode : Bool
  reads : Nat
deriving DecidableEq, Repr

/-- The retry/safe-mode core of `SensorDriver.run_acquisition_loop`
(`sensor_minimal.py` lines 195-234), driven by the planned outcome of each
transport read until the polling duration expires (end of the list): a
successful iteration resets the consecutive-error counter (line 219), a
`ModbusConnectionError` increments it (line 223), and when the incremented
counter reaches `max_consecutive_errors` the loop logs safe mode and breaks
without issuing further reads (lines 225-227). -/
def run_acquisition_loop_aux (maxErr : Nat) :
    Nat → Nat → List Outcome → LoopResult
  | e, r, [] => { errors := e, safe_mode := false, reads := r }
  | _, r, Outcome.success :: rest =>
      run_acquisition_loop_aux maxErr 0 (r + 1) rest
  | e, r, Outcome.failure :: rest =>
      if e + 1 ≥ maxErr then
        { errors := e + 1, safe_mode := true, reads := r + 1 }
      else run_acquisition_loop_aux maxErr (e + 1) (r + 1) rest

/-- Runs `run_acquisition_loop` from a fresh session (`errors = 0`). -/
def run_acquisition_loop (maxErr : Nat) (evs : List Outcome) : LoopResult :=
  run_acquisition_loop_aux maxErr 0 0 evs

theorem trips_of_failures (maxErr : Nat) :
    ∀ (j : Nat) (tail : List Outcome) (e r : Nat), 1 ≤ j → maxErr ≤ e + j →
      (run_acquisition_loop_aux maxErr e r
        (List.replicate j Outcome.failure ++ tail)).safe_mode = true := by
  intro j
  induction j with
  | zero => intro tail e r h1 _; omega
  | succ j ih =>
    intro tail e r _ hj
    rw [List.replicate_succ, List.cons_append]
    rw [run_acquisition_loop_aux]
    by_cases hge : e + 1 ≥ maxErr
    · rw [if_pos hge]
    · rw [if_neg hge]
      have hj1 : 1 ≤ j := by omega
      exact ih tail (e + 1) (r + 1) hj1 (by omega)

theorem safe_of_decomp (maxErr : Nat) (hm : 1 ≤ maxErr) :
    ∀ (l₁ tail : List Outcome) (e r : Nat),
      (run_acquisition_loop_aux maxErr e r
        (l₁ ++ List.replicate maxErr Outcome.failure ++ tail)).safe_mode
          = true := by
  intro l₁
  induction l₁ with
  | nil =>
    intro tail e r
    rw [List.nil_append]
    exact trips_of_failures maxErr maxErr tail e r hm (by omega)
  | cons o l₁ ih =>
    intro tail e r
    cases o with
    | success =>
      rw [List.cons_append, List.cons_append, run_acquisition_loop_aux]
      exact ih tail 0 (r + 1)
    | failure =>
      rw [List.cons_append, List.cons_append, run_acquisition_loop_aux]
      by_cases hge : e + 1 ≥ maxErr
      · rw [if_pos hge]
      · rw [if_neg hge]
        exact ih tail (e + 1) (r + 1)

theorem decomp_of_safe (maxErr : Nat) :
    ∀ (evs : List Outcome) (e r : Nat),
      (run_acquisition_loop_aux maxErr e r evs).safe_mode = true →
      (∃ l₁ l₂, evs = l₁ ++ List.replicate maxErr Outcome.failure ++ l₂) ∨
      (∃ j l₂, evs = List.replicate j Outcome.failure ++ l₂
        ∧ maxErr ≤ e + j) := by
  intro evs
  induction evs with
  | nil =>
    intro e r h
    rw [run_acquisition_loop_aux] at h
    simp at h
  | cons o rest ih =>
    intro e r h
    cases o with
    | success =>
      rw [run_acquisition_loop_aux] at h
      rcases ih 0 (r + 1) h with ⟨l₁, l₂, hdec⟩ | ⟨j, l₂, hdec, hj⟩
      · exact Or.inl ⟨Outcome.success :: l₁, l₂, by rw [hdec]; rfl⟩
      · left
        refine ⟨[Outcome.success], List.replicate (j - maxErr) Outcome.failure
          ++ l₂, ?_⟩
        have hsplit : List.replicate j Outcome.failure
            = List.replicate maxErr Outcome.failure
              ++ List.replicate (j - maxErr) Outcome.failure := by
          rw [← List.replicate_add]
          congr 1
          omega
        rw [hdec, hsplit, List.append_assoc]
        rfl
    | failure =>
      rw [run_acquisition_loop_aux] at h
      by_cases hge : e + 1 ≥ maxErr
      · right
        refine ⟨1, rest, by simp, by omega⟩
      · rw [if_neg hge] at h
        rcases ih (e + 1) (r + 1) h with ⟨l₁, l₂, hdec⟩ | ⟨j, l₂, hdec, hj⟩
        · exact Or.inl ⟨Outcome.failure :: l₁, l₂, by rw [hdec]; rfl⟩
        · right
          refine ⟨j + 1, l₂, ?_, by omega⟩
          rw [List.replicate_succ, List.cons_append, hdec]

theorem aux_append_of_safe (maxErr : Nat) :
    ∀ (evs : List Outcome) (e r : Nat) (extra : List Outcome),
      (run_acquisition_loop_aux maxErr e r evs).safe_mode = true →
      run_acquisition_loop_aux maxErr e r (evs ++ extra)
        = run_acquisition_loop_aux maxErr e r evs := by
  intro evs
  induction evs with
  | nil =>
    intro e r extra h
    rw [run_acquisition_loop_aux] at h
    simp at h
  | cons o rest ih =>
    intro e r extra h
    cases o with
    | success =>
      rw [run_acquisition_loop_aux] at h
      rw [List.cons_append, run_acquisition_loop_aux,
        run_acquisition_loop_aux]
      exact ih 0 (r + 1) extra h
    | failure =>
      by_cases hge : e + 1 ≥ maxErr
      · rw [List.cons_append, run_acquisition_loop_aux, if_pos hge,
          run_acquisition_loop_aux, if_pos hge]
      · rw [run_acquisition_loop_aux, if_neg hge] at h
        rw [List.cons_append, run_acquisition_loop_aux, if_neg hge,
          run_acquisition_loop_aux, if_neg hge]
        exact ih (e + 1) (r + 1) extra h

theorem aux_append_last (maxErr : Nat) :
    ∀ (evs : List Outcome) (e r : Nat),
      (run_acquisition_loop_aux maxErr e r evs).safe_mode = false →
      (run_acquisition_loop_aux maxErr e r
        (evs ++ [Outcome.success])).errors = 0 ∧
      (run_acquisition_loop_aux maxErr e r
        (evs ++ [Outcome.failure])).errors
        = (run_acquisition_loop_aux maxErr e r evs).errors + 1 := by
  intro evs
  induction evs with
  | nil =>
    intro e r _
    constructor
    · rw [List.nil_append, run_acquisition_loop_aux,
        run_acquisition_loop_aux]
    · rw [List.nil_append, run_acquisition_loop_aux,
        run_acquisition_loop_aux]
      by_cases hge : e + 1 ≥ maxErr
      · rw [if_pos hge]
      · rw [if_neg hge, run_acquisition_loop_aux]
  | cons o rest ih =>
    intro e r h
    cases o with
    | success =>
      rw [run_acquisition_loop_aux] at h
      rw [List.cons_append, List.cons_append, run_acquisition_loop_aux,
        run_acquisition_loop_aux, run_acquisition_loop_aux]
      exact ih 0 (r + 1) h
    | failure =>
      by_cases hge : e + 1 ≥ maxErr
      · rw [run_acquisition_loop_aux, if_pos hge] at h
        simp at h
      · rw [run_acquisition_loop_aux, if_neg hge] at h
        rw [List.cons_append, List.cons_append, run_acquisition_loop_aux,
          if_neg hge, run_acquisition_loop_aux, if_neg hge,
          run_acquisition_loop_aux, if_neg hge]
        exact ih (e + 1) (r + 1) h

/-- C6: with a maximum of `m ≥ 1` consecutive failures (default 3), the loop
enters safe mode exactly when the planned outcomes contain `m` consecutive
transport failures — each failure increments the counter, any success resets
it to zero, so interleaving a success among failures prevents safe mode —
and once safe mode is reached no further planned iteration is consumed
(appending more outcomes changes nothing). -/
theorem C6_safe_mode (m : Nat) (evs extra : List Outcome) (hm : 1 ≤ m) :
    ((run_acquisition_loop m evs).safe_mode = true ↔
      ∃ l₁ l₂, evs = l₁ ++ List.replicate m Outcome.failure ++ l₂) ∧
    ((run_acquisition_loop m evs).safe_mode = true →
      run_acquisition_loop m (evs ++ extra) = run_acquisition_loop m evs) ∧
    ((run_acquisition_loop m evs).safe_mode = false →
      (run_acquisition_loop m (evs ++ [Outcome.success])).errors = 0 ∧
      (run_acquisition_loop m (evs ++ [Outcome.failure])).errors
        = (run_acquisition_loop m evs).errors + 1) := by
  refine ⟨⟨?_, ?_⟩, ?_, ?_⟩
  · intro h
    rcases decomp_of_safe m evs 0 0 h with ⟨l₁, l₂, hdec⟩ | ⟨j, l₂, hdec, hj⟩
    · exact ⟨l₁, l₂, hdec⟩
    · refine ⟨[], List.replicate (j - m) Outcome.failure ++ l₂, ?_⟩
      have hsplit : List.replicate j Outcome.failure
          = List.replicate m Outcome.failure
            ++ List.replicate (j - m) Outcome.failure := by
        rw [← List.replicate_add]
        congr 1
        omega
      rw [hdec, hsplit, List.append_assoc, List.nil_append]
  · rintro ⟨l₁, l₂, hdec⟩
    rw [hdec]
    exact safe_of_decomp m hm l₁ l₂ 0 0
  · intro h
    exact aux_append_of_safe m evs 0 0 extra h
  · intro h
    exact aux_append_last m evs 0 0 h

theorem C6_safe_mode_witness :
    (run_acquisition_loop 3
      [Outcome.failure, Outcome.failure, Outcome.failure]).safe_mode
        = true ∧
    run_acquisition_loop 3
      ([Outcome.failure, Outcome.failure, Outcome.failure]
        ++ [Outcome.failure])
      = run_acquisition_loop 3
          [Outcome.failure, Outcome.failure, Outcome.failure] ∧
    (run_acquisition_loop 3
      [Outcome.failure, Outcome.failure, Outcome.success, Outcome.failure,
        Outcome.failure]).safe_mode = false := by
  have h := C6_safe_mode 3
    [Outcome.failure, Outcome.failure, Outcome.failure] [Outcome.failure]
    (by norm_num)
  have hs : (run_acquisition_loop 3
      [Outcome.failure, Outcome.failure, Outcome.failure]).safe_mode
        = true :=
    h.1.mpr ⟨[], [], by decide⟩
  exact ⟨hs, h.2.1 hs, by decide⟩

/-- Sensor reading of the minimal driver, from `sensor_minimal.py`
(`SensorReading`); the timestamp is omitted as no embedded operation reads
it. -/
structure SensorReading where
  pressure_psi : ℝ
  temperature_c : ℝ
  device_id : String

noncomputable section

/-- Embeds `SensorDriver.forward_to_historian` (`sensor_minimal.py` lines 147-158):
the simulated OPC UA write always succeeds and returns `True`. -/
def forward_to_historian (_reading : SensorReading) : Bool := true

/-- The body of the `try` block of `SensorDriver._exfiltrate_to_cloud`
(`sensor_minimal.py` lines 171-189): it unconditionally raises
`DataExfiltrationError`, modelled as an `Except.error` that never produces
an `ok` value. -/
def cloud_sync_body : Except String Bool :=
  Except.error ("Network access denied by runtime")

/-- Embeds `SensorDriver._exfiltrate_to_cloud` (`sensor_minimal.py` lines 160-193):
returns `False` when cloud sync is disabled, otherwise runs the always-raising
body and converts the caught exception to `False`. -/
def exfiltrate_to_cloud (enable_cloud_sync : Bool) : Bool :=
  if enable_cloud_sync then
    match cloud_sync_body with
    | Except.ok b => b
    | Except.error _ => false
  else false

/-- The body of the `try` block of `EnterpriseDriver._attempt_cloud_sync`
(`sensor_full.py` lines 299-316): it unconditionally raises
`ConnectionError`. -/
def cloud_sync_body_full : Except String Bool :=
  Except.error ("Network access denied by security policy")

/-- Embeds `EnterpriseDriver._attempt_cloud_sync` (`sensor_full.py` lines 289-320). -/
def attempt_cloud_sync (enable_cloud_analytics : Bool) : Bool :=
  if enable_cloud_analytics then
    match cloud_sync_body_full with
    | Except.ok b => b
    | Except.error _ => false
  else false

/-- The body of one successful iteration of the acquisition loop
(`sensor_minimal.py` lines 211-219): forward the reading to the historian,
attempt the cloud call (result discarded), reset the error counter. Returns
the historian result and the new error counter. -/
def acquisition_iteration (reading : SensorReading)
    (cloud : SensorReading → Bool) : Bool × Nat :=
  let hist := forward_to_historian reading
  let _cloud_result := cloud reading
  (hist, 0)

/-- Batch of readings, from `sensor_full.py` (`SensorBatch`); the identifier
`BATCH-{int(time.time())}` is modelled by the integer timestamp that
determines it, and the start time is omitted. -/
structure Batch where
  readings : List ProcessVariable
  batch_id : Nat

/-- Embeds `SensorBatch.add` (`sensor_full.py` lines 92-93). -/
def Batch.add (b : Batch) (pv : ProcessVariable) : Batch :=
  { b with readings := b.readings ++ [pv] }

/-- Mutable state of `EnterpriseDriver` touched by `process_and_forward`. -/
structure DriverState where
  pipeline : Pipeline
  batch : Batch

/-- The per-reading body of `EnterpriseDriver.process_and_forward`
(`sensor_full.py` lines 262-272): add to the rolling buffer and the batch,
recompute statistics; the SPC alarm check (`check_spc_alarm`, embedded
above) is read-only and only logged. -/
def process_one (st : DriverState) (pv : ProcessVariable) : DriverState :=
  { pipeline := (compute_statistics (add_reading st.pipeline pv)
      pv.tag_name).2
    batch := Batch.add st.batch pv }

/-- Embeds `EnterpriseDriver.process_and_forward` (`sensor_full.py` lines 260-287):
process each reading, then — once the batch has reached the configured
`batch_size` — log it to the historian, attempt the cloud sync (the
`cloud_sink` parameter; its result is ignored), and replace the batch with a
fresh empty one whose identifier is the integer timestamp `now`. -/
def process_and_forward (batch_size now : Nat)
    (cloud_sink : List ProcessVariable → Bool) (st : DriverState)
    (pvs : List ProcessVariable) : DriverState :=
  let stA := pvs.foldl process_one st
  if stA.batch.readings.length ≥ batch_size then
    let _sync := cloud_sink stA.batch.readings
    { pipeline := stA.pipeline
      batch := { readings := [], batch_id := now } }
  else stA

/-- The cloud sink actually installed in the driver (`enable_cloud_analytics`
defaults to `True` in `_load_config`). -/
def cloudSink : List ProcessVariable → Bool :=
  fun _ => attempt_cloud_sync true

/-- Demonstration driver state: a fresh pipeline with an empty batch whose
identifier was taken from integer timestamp 7. -/
def batchDemo0 : DriverState :=
  { pipeline := initPipeline 100
    batch := { readings := [], batch_id := 7 } }

/-- One three-reading poll group, the shape `read_process_variables` hands to
`process_and_forward` on every cycle (concrete demonstration values). -/
def batchDemoGroup : List ProcessVariable :=
  [mkPV ("T") 1, mkPV ("T") 2, mkPV ("T") 3]

/-- One poll cycle of `process_and_forward` at batch size 10 with the flush
timestamp equal to 7, the timestamp that named the initial batch. -/
def batchDemoStep (st : DriverState) : DriverState :=
  process_and_forward 10 7 cloudSink st batchDemoGroup

/-- Embeds `EnterpriseDriver.read_process_variables` (`sensor_full.py` lines
220-258), with the three `np.random.normal` samples as explicit
parameters. -/
def read_process_variables (noise_p noise_t noise_f : ℝ) :
    List ProcessVariable :=
  [ { tag_name := ("PLATFORM7.WELL03.PRESSURE")
      value := 2847.3 + noise_p
      unit := ("PSI")
      quality := DataQuality.GOOD
      source_device := ("PLATFORM-7-WELL-03")
      engineering_low := 0
      engineering_high := 5000 }
  , { tag_name := ("PLATFORM7.WELL03.TEMPERATURE")
      value := 67.8 + noise_t
      unit := ("DEG_C")
      quality := DataQuality.GOOD
      source_device := ("PLATFORM-7-WELL-03")
      engineering_low := -20
      engineering_high := 150 }
  , { tag_name := ("PLATFORM7.WELL03.FLOW_RATE")
      value := 1250.0 + noise_f
      unit := ("BPM")
      quality := DataQuality.GOOD
      source_device := ("PLATFORM-7-WELL-03")
      engineering_low := 0
      engineering_high := 2000 } ]

/-- Fallback reading used with `List.headD` in closed statements. -/
def dummyPV : ProcessVariable := mkPV ("X") 0

end

/-- C7: the cloud-sync calls of both drivers deterministically fail — the
`try` bodies never produce a success, both wrappers always return `False`,
and the exception is caught at the call site (the wrappers are total) — and
the failure never alters the local data path: `process_and_forward` yields
the same state whatever the cloud sink returns, the iteration of the minimal
loop is likewise independent of the cloud call, and its historian forward
still succeeds. -/
theorem C7_cloud_sync_denied :
    cloud_sync_body.toOption = none ∧
    cloud_sync_body_full.toOption = none ∧
    (∀ en, exfiltrate_to_cloud en = false) ∧
    (∀ en, attempt_cloud_sync en = false) ∧
    (∀ (bs now : Nat) (s₁ s₂ : List ProcessVariable → Bool)
        (st : DriverState) (pvs : List ProcessVariable),
      process_and_forward bs now s₁ st pvs
        = process_and_forward bs now s₂ st pvs) ∧
    (∀ (r : SensorReading) (c₁ c₂ : SensorReading → Bool),
      acquisition_iteration r c₁ = acquisition_iteration r c₂) ∧
    (∀ (r : SensorReading) (c : SensorReading → Bool),
      (acquisition_iteration r c).1 = true) := by
  refine ⟨rfl, rfl, ?_, ?_, ?_, ?_, ?_⟩
  · intro en
    cases en <;> rfl
  · intro en
    cases en <;> rfl
  · intro bs now s₁ s₂ st pvs
    rfl
  · intro r c₁ c₂
    rfl
  · intro r c
    rfl

theorem foldl_process_one_batch (pvs : List ProcessVariable) :
    ∀ st : DriverState,
      ((pvs.foldl process_one st).batch.readings
        = st.batch.readings ++ pvs) ∧
      ((pvs.foldl process_one st).batch.batch_id = st.batch.batch_id) := by
  induction pvs with
  | nil =>
    intro st
    exact ⟨(List.append_nil _).symm, rfl⟩
  | cons pv rest ih =>
    intro st
    have h := ih (process_one st pv)
    simp only [List.foldl_cons]
    constructor
    · rw [h.1]
      simp [process_one, Batch.add]
    · rw [h.2]
      rfl

theorem process_and_forward_eq (bs now : Nat)
    (sink : List ProcessVariable → Bool) (st : DriverState)
    (pvs : List ProcessVariable) :
    process_and_forward bs now sink st pvs
      = if (pvs.foldl process_one st).batch.readings.length ≥ bs then
          { pipeline := (pvs.foldl process_one st).pipeline
            batch := { readings := [], batch_id := now } }
        else pvs.foldl process_one st := by
  rfl

/-- C8 fails as stated, in both respects. The driver adds readings in groups
of three per poll and `process_and_forward` checks the flush condition once
per call, after the whole group: starting from an empty batch named at
integer timestamp 7, the batch sizes after successive polls are 3, 6 and 9
with no flush, and during the fourth poll the batch reaches size 12 — past
the threshold 10 — before the post-loop check flushes it, so the batch is
not flushed when its size reaches the threshold; moreover this flush happens
at the same integer timestamp 7 that named the batch, so the replacement
batch carries the identifier of the batch just flushed, not a distinct
one. -/
theorem C8_batch_flush_counterexample :
    (batchDemoStep batchDemo0).batch.readings.length = 3 ∧
    (batchDemoStep (batchDemoStep batchDemo0)).batch.readings.length = 6 ∧
    (batchDemoStep (batchDemoStep (batchDemoStep
      batchDemo0))).batch.readings.length = 9 ∧
    (batchDemoGroup.foldl process_one (batchDemoStep (batchDemoStep
      (batchDemoStep batchDemo0)))).batch.readings.length = 12 ∧
    (batchDemoStep (batchDemoStep (batchDemoStep (batchDemoStep
      batchDemo0)))).batch.readings = [] ∧
    (batchDemoStep (batchDemoStep (batchDemoStep (batchDemoStep
      batchDemo0)))).batch.batch_id = batchDemo0.batch.batch_id := by
  exact ⟨rfl, rfl, rfl, rfl, rfl, rfl⟩

/-- C8 (amended): at the end of each `process_and_forward` call the batch is
flushed exactly when its size, after the call's additions, has reached (≥)
the configured threshold (default 10): below the threshold the call's
readings are appended and the identifier is kept; otherwise — since readings
arrive in groups, the size at the check can exceed the threshold — the batch
is replaced by a new empty batch whose identifier is the integer flush
timestamp, and that identifier is distinct from the flushed batch's exactly
when the flush occurs at a different integer timestamp than the one that
named the flushed batch (the code derives both from `int(time.time())`). -/
theorem C8_batch_flush (bs now : Nat) (sink : List ProcessVariable → Bool)
    (st : DriverState) (pvs : List ProcessVariable) :
    (st.batch.readings.length + pvs.length < bs →
      (process_and_forward bs now sink st pvs).batch.readings
        = st.batch.readings ++ pvs ∧
      (process_and_forward bs now sink st pvs).batch.batch_id
        = st.batch.batch_id) ∧
    (bs ≤ st.batch.readings.length + pvs.length →
      (process_and_forward bs now sink st pvs).batch.readings = [] ∧
      (process_and_forward bs now sink st pvs).batch.batch_id = now) ∧
    (bs ≤ st.batch.readings.length + pvs.length →
      now ≠ st.batch.batch_id →
      (process_and_forward bs now sink st pvs).batch.batch_id
        ≠ st.batch.batch_id) := by
  have hfold := foldl_process_one_batch pvs st
  have hlen : (pvs.foldl process_one st).batch.readings.length
      = st.batch.readings.length + pvs.length := by
    rw [hfold.1, List.length_append]
  refine ⟨?_, ?_, ?_⟩
  · intro hlt
    have hcond : ¬ ((pvs.foldl process_one st).batch.readings.length ≥ bs) := by
      rw [hlen]
      omega
    rw [process_and_forward_eq, if_neg hcond]
    exact ⟨hfold.1, hfold.2⟩
  · intro hge
    have hcond : (pvs.foldl process_one st).batch.readings.length ≥ bs := by
      rw [hlen]
      omega
    rw [process_and_forward_eq, if_pos hcond]
    exact ⟨rfl, rfl⟩
  · intro hge hne
    have hcond : (pvs.foldl process_one st).batch.readings.length ≥ bs := by
      rw [hlen]
      omega
    rw [process_and_forward_eq, if_pos hcond]
    exact hne

theorem C8_batch_flush_witness :
    (process_and_forward 10 8 cloudSink
      { pipeline := initPipeline 100
        batch := { readings := List.replicate 9 (mkPV ("T") 1)
                   batch_id := 7 } } batchDemoGroup).batch.readings = [] ∧
    (process_and_forward 10 8 cloudSink
      { pipeline := initPipeline 100
        batch := { readings := List.replicate 9 (mkPV ("T") 1)
                   batch_id := 7 } } batchDemoGroup).batch.batch_id ≠ 7 := by
  have h := C8_batch_flush 10 8 cloudSink
    { pipeline := initPipeline 100
      batch := { readings := List.replicate 9 (mkPV ("T") 1)
                 batch_id := 7 } } batchDemoGroup
  have hsz : (10 : Nat) ≤ (List.replicate 9 (mkPV ("T") 1)).length
      + batchDemoGroup.length := by
    simp [batchDemoGroup]
  exact ⟨(h.2.1 hsz).1, by
    rw [(h.2.1 hsz).2]
    decide⟩

/-- C9 fails as stated: `read_process_variables` assigns quality GOOD
unconditionally, so with a noise sample of 3000 the pressure reading's value
2847.3 + 3000 exceeds its engineering high limit 5000 while its quality flag
is still GOOD, not BAD. -/
theorem C9_quality_counterexample :
    ((read_process_variables 3000 0 0).headD dummyPV).quality
      = DataQuality.GOOD ∧
    ((read_process_variables 3000 0 0).headD dummyPV).value
      = 2847.3 + 3000 ∧
    ((read_process_variables 3000 0 0).headD dummyPV).engineering_high
      < ((read_process_variables 3000 0 0).headD dummyPV).value := by
  refine ⟨rfl, rfl, ?_⟩
  show (5000 : ℝ) < 2847.3 + 3000
  norm_num

/-- C9 (amended): the reader never fails and never clamps — every produced
Measurement carries the raw computed value unchanged — but it assigns
quality GOOD unconditionally, whatever the noise samples, so the claimed
invariant `quality = BAD whenever the value is outside [low, high]` does not
hold; `is_in_range` itself correctly decides membership of the value in the
engineering range. -/
theorem C9_quality_gate (noise_p noise_t noise_f lo hi v : ℝ) :
    ((read_process_variables noise_p noise_t noise_f).map
        ProcessVariable.quality)
      = [DataQuality.GOOD, DataQuality.GOOD, DataQuality.GOOD] ∧
    ((read_process_variables noise_p noise_t noise_f).map
        ProcessVariable.value)
      = [2847.3 + noise_p, 67.8 + noise_t, 1250.0 + noise_f] ∧
    (ProcessVariable.is_in_range
        { tag_name := ("T"), value := v, unit := ("")
          quality := DataQuality.GOOD, source_device := ("")
          engineering_low := lo, engineering_high := hi }
      ↔ lo ≤ v ∧ v ≤ hi) := by
  exact ⟨rfl, rfl, Iff.rfl⟩
